import Mathlib

/-!
Shallow embedding of the task9 flight-booking backend.

The definitions below translate the Python sources:
  src/models/*.py        — the seven relational tables and their join conditions
  src/redis_cache.py     — the seat-availability cache
  src/auth.py            — password check, token issuance
  src/routers/auth.py    — login / register endpoints
  src/routers/flights.py — search_flights / get_all_flights
  src/routers/bookings.py — list / get / create / delete booking endpoints
  fill_data.py           — the one-shot data-seeding utility

The database is a value (lists of rows); each endpoint is a pure function
from the database (and, where the code uses it, the cache and the clock)
to a result and the successor state.  External collaborators that hash or
verify passwords are passed in as function parameters.
-/

namespace Task9

/-- A timestamp as the Python `datetime` objects stored in the `fldate`
columns: year/month/day plus time of day (microseconds unused by the code). -/
structure DateTime where
  year : Nat
  month : Nat
  day : Nat
  hour : Nat
  minute : Nat
  second : Nat
deriving DecidableEq, Repr

/-- The result of Python `datetime.date()`: the date component alone. -/
structure DateOnly where
  year : Nat
  month : Nat
  day : Nat
deriving DecidableEq, Repr

def DateTime.dateOnly (d : DateTime) : DateOnly :=
  ⟨d.year, d.month, d.day⟩

/-- Zero-pad a number to two digits, as `strftime`/`isoformat` do. -/
def pad2 (n : Nat) : String :=
  if n < 10 then "0" ++ toString n else toString n

/-- Zero-pad a number to four digits (the year field). -/
def pad4 (n : Nat) : String :=
  if n < 10 then "000" ++ toString n
  else if n < 100 then "00" ++ toString n
  else if n < 1000 then "0" ++ toString n
  else toString n

/-- Python `datetime.isoformat()` for a microsecond-free timestamp:
`YYYY-MM-DDTHH:MM:SS`. -/
def DateTime.isoformat (d : DateTime) : String :=
  pad4 d.year ++ "-" ++ pad2 d.month ++ "-" ++ pad2 d.day ++ "T" ++
    pad2 d.hour ++ ":" ++ pad2 d.minute ++ ":" ++ pad2 d.second

/-- Python `strftime("%Y-%m-%d %H:%M:%S")`, the format used to derive the
cache key in `create_booking` (src/routers/bookings.py line 158). -/
def DateTime.strftimeYmdHms (d : DateTime) : String :=
  pad4 d.year ++ "-" ++ pad2 d.month ++ "-" ++ pad2 d.day ++ " " ++
    pad2 d.hour ++ ":" ++ pad2 d.minute ++ ":" ++ pad2 d.second

/-! ### The seven tables (src/models) -/

/-- `scarr` (src/models/scarr.py): carriers, key (mandt, carrid). -/
structure SCarr where
  mandt : String
  carrid : String
  carrname : String
deriving DecidableEq, Repr

/-- `sairport` (src/models/sairport.py): airports, key (mandt, id). -/
structure SAirport where
  mandt : String
  id : Int
  name : String
deriving DecidableEq, Repr

/-- `sflight` (src/models/sflight.py): flights, key (mandt, carrid, connid,
fldate).  `price` is a `Numeric` column; a NULL (or zero, which Python's
`or` treats the same way) price is modelled as `none`, any other value as
its decimal string.  `planetype` and `seatsocc` are never read by the
routers and are omitted. -/
structure SFlight where
  mandt : String
  carrid : String
  connid : String
  fldate : DateTime
  price : Option String
  currency : Option String
  seatsmax : Int
  airpfrom_id : Int
  airpto_id : Int
deriving DecidableEq, Repr

/-- `spfli` (src/models/spfli.py): schedule rows, key (mandt, carrid,
connid, fldate). -/
structure SPFli where
  mandt : String
  carrid : String
  connid : String
  fldate : DateTime
  countryfr : String
  cityfrom : String
  airpfrom : String
  countryto : String
  cityto : String
  airpto : String
  fltime : Int
deriving DecidableEq, Repr

/-- `sbook` (src/models/sbook.py): bookings, key (mandt, carrid, connid,
fldate, bookid); (custom_mandt, custom_id) references the owning customer. -/
structure SBook where
  mandt : String
  carrid : String
  connid : String
  fldate : DateTime
  bookid : Int
  custom_mandt : String
  custom_id : Int
deriving DecidableEq, Repr

/-- `scust` (src/models/scust.py): customers, key (mandt, id). -/
structure SCust where
  mandt : String
  id : Int
  name : String
deriving DecidableEq, Repr

/-- `users` (src/models/user.py). -/
structure User where
  id : Int
  username : String
  email : String
  hashed_password : String
  disabled : Bool
deriving DecidableEq, Repr

/-- A database state: the rows of the seven tables, in insertion order
(queries without an ORDER BY return rows in this order, and `.first()`
takes the head). -/
structure DB where
  scarrs : List SCarr
  sairports : List SAirport
  sflights : List SFlight
  spflis : List SPFli
  sbooks : List SBook
  scusts : List SCust
  users : List User
deriving DecidableEq, Repr

def DB.empty : DB := ⟨[], [], [], [], [], [], []⟩

/-! ### Relationship wiring (src/models/relationships.py)

`SPFli.flight`, `SPFli.bookings` and `SBook.schedule` join on the triple
(carrid, connid, fldate) — the `mandt` column is *not* part of these join
conditions.  `SFlight.carrier` joins on (mandt, carrid). -/

/-- `spfli.flight`: the first flight row matching the schedule's
(carrid, connid, fldate) triple, if any. -/
def SPFli.flightOf (db : DB) (sp : SPFli) : Option SFlight :=
  db.sflights.find? fun f =>
    f.carrid == sp.carrid && f.connid == sp.connid && f.fldate == sp.fldate

/-- `spfli.bookings`: all booking rows matching the schedule's
(carrid, connid, fldate) triple. -/
def SPFli.bookingsOf (db : DB) (sp : SPFli) : List SBook :=
  db.sbooks.filter fun b =>
    b.carrid == sp.carrid && b.connid == sp.connid && b.fldate == sp.fldate

/-- `book.schedule`: the first schedule row matching the booking's
(carrid, connid, fldate) triple, if any. -/
def SBook.scheduleOf (db : DB) (b : SBook) : Option SPFli :=
  db.spflis.find? fun sp =>
    sp.carrid == b.carrid && sp.connid == b.connid && sp.fldate == b.fldate

/-- `sflight.carrier`: the carrier row matching (mandt, carrid), if any. -/
def SFlight.carrierOf (db : DB) (f : SFlight) : Option SCarr :=
  db.scarrs.find? fun c => c.mandt == f.mandt && c.carrid == f.carrid

/-! ### Seat-availability cache (src/redis_cache.py) -/

/-- One cached value: learned key, stored count and the time-to-live it
was written with. -/
structure CacheEntry where
  key : String
  value : Int
  ttl : Nat
deriving DecidableEq, Repr

/-- The cache: the process-wide `redis_available` flag plus the stored
entries.  When `available` is false every operation is a silent no-op. -/
structure Cache where
  available : Bool
  entries : List CacheEntry
deriving DecidableEq, Repr

/-- The key pattern `seats:{carrid}:{connid}:{fldate_str}`. -/
def seatsKey (carrid connid fldate_str : String) : String :=
  "seats:" ++ carrid ++ ":" ++ connid ++ ":" ++ fldate_str

/-- `get_available_seats_from_cache`: absent when the cache backend is
down or the key is missing. -/
def get_available_seats_from_cache (cache : Cache)
    (carrid connid fldate_str : String) : Option Int :=
  if !cache.available then none
  else
    (cache.entries.find? fun e => e.key == seatsKey carrid connid fldate_str).map
      (·.value)

/-- `set_available_seats_in_cache`: `setex` overwrites any previous value
under the same key; a no-op when the cache backend is down.  Both call
sites in the code leave `ttl` at its default 3600. -/
def set_available_seats_in_cache (cache : Cache)
    (carrid connid fldate_str : String) (count : Int) (ttl : Nat) : Cache :=
  if !cache.available then cache
  else
    let key := seatsKey carrid connid fldate_str
    { cache with
      entries := ⟨key, count, ttl⟩ :: cache.entries.filter fun e => !(e.key == key) }

/-! ### Authentication module (src/auth.py) -/

/-- `get_user_by_username`: first user row with the given username. -/
def get_user_by_username (db : DB) (username : String) : Option User :=
  db.users.find? fun u => u.username == username

/-- `authenticate_user`: the stored user when the username exists and the
password verifies against the stored hash, otherwise `None`.  The
`verify` collaborator stands for `passlib`'s `pwd_context.verify`. -/
def authenticate_user (verify : String → String → Bool) (db : DB)
    (username password : String) : Option User :=
  match get_user_by_username db username with
  | none => none
  | some user =>
      if !(verify password user.hashed_password) then none else some user

/-- `ACCESS_TOKEN_EXPIRE_MINUTES` (src/auth.py line 24). -/
def ACCESS_TOKEN_EXPIRE_MINUTES : Nat := 30

/-- The claim set of an issued JWT: the caller's data plus the `exp`
timestamp merged in at issuance (seconds since the epoch). -/
structure TokenPayload where
  claims : List (String × String)
  exp : Nat
deriving DecidableEq, Repr

/-- `create_access_token`: expiry is `now + expires_delta` when a delta is
given, else `now + 15 minutes` (src/auth.py lines 104-111).  Durations
are in seconds. -/
def create_access_token (data : List (String × String)) (now : Nat)
    (expires_delta : Option Nat) : TokenPayload :=
  let expire :=
    match expires_delta with
    | some d => now + d
    | none => now + 15 * 60
  { claims := data, exp := expire }

/-! ### Authentication router (src/routers/auth.py) -/

/-- Outcome of `POST /api_v1/login`. -/
inductive LoginResult where
  | unauthorized
  | token (t : TokenPayload)
deriving DecidableEq, Repr

/-- `login`: authenticate, then issue a token with an explicit 30-minute
lifetime. -/
def login (verify : String → String → Bool) (db : DB)
    (username password : String) (now : Nat) : LoginResult :=
  match authenticate_user verify db username password with
  | none => .unauthorized
  | some user =>
      .token (create_access_token [("sub", user.username)] now
        (some (ACCESS_TOKEN_EXPIRE_MINUTES * 60)))

/-- The registration request schema (src/schemas/users.py). -/
structure UserRegister where
  username : String
  email : String
  password : String
deriving DecidableEq, Repr

/-- Outcome of `POST /api_v1/register`. -/
inductive RegisterResult where
  | duplicateUsername
  | duplicateEmail
  | token (t : TokenPayload)
deriving DecidableEq, Repr

/-- `register`: username uniqueness is checked first, then email; on
success the user row (disabled = false) and the matching `scust` row
under client "100" are inserted and a token is issued with *no* explicit
lifetime.  `hash` stands for `get_password_hash`; `newId` is the id the
store assigns to the new user row. -/
def register (hash : String → String) (db : DB) (u : UserRegister)
    (newId : Int) (now : Nat) : RegisterResult × DB :=
  if (db.users.find? fun x => x.username == u.username).isSome then
    (.duplicateUsername, db)
  else if (db.users.find? fun x => x.email == u.email).isSome then
    (.duplicateEmail, db)
  else
    let db_user : User :=
      { id := newId, username := u.username, email := u.email,
        hashed_password := hash u.password, disabled := false }
    let db1 := { db with users := db.users ++ [db_user] }
    let db2 := { db1 with scusts := db1.scusts ++ [⟨"100", db_user.id, db_user.username⟩] }
    (.token (create_access_token [("sub", db_user.username)] now none), db2)

/-! ### Flights router (src/routers/flights.py) -/

/-- Case-insensitive substring test: hay `ILIKE %needle%`. -/
def charsContain (needle hay : List Char) : Bool :=
  needle.isPrefixOf hay ||
    match hay with
    | [] => false
    | _ :: t => charsContain needle t

/-- SQL `column.ilike(f"%x%")`: the column value contains `x`
case-insensitively. -/
def ilikeContains (hay needle : String) : Bool :=
  charsContain (needle.data.map Char.toLower) (hay.data.map Char.toLower)

/-- One element of the `FlightSearchResponse` lists returned by both
flights endpoints; `total_seats` is only populated by the full listing. -/
structure FlightItem where
  carrid : String
  connid : String
  fldate : String
  cityfrom : String
  cityto : String
  available_seats : Int
  total_seats : Option Int
  price : String
  currency : String
deriving DecidableEq, Repr

/-- The dict built for one match inside `search_flights`. -/
def mkSearchItem (db : DB) (sp : SPFli) (f : SFlight) : FlightItem :=
  { carrid := sp.carrid, connid := sp.connid, fldate := sp.fldate.isoformat,
    cityfrom := sp.cityfrom, cityto := sp.cityto,
    available_seats := max 0 (f.seatsmax - ((sp.bookingsOf db).length : Int)),
    total_seats := none,
    price := f.price.getD "0.00", currency := f.currency.getD "EUR" }

/-- `search_flights` after the date string has parsed (the endpoint 400s
on an unparseable date before reaching this logic): filter schedules by
case-insensitive city containment, then drop rows whose departure date
component differs, whose flight is missing, or whose computed
availability is not positive. -/
def search_flights (db : DB) (from_city to_city : String)
    (target_date : DateOnly) : List FlightItem :=
  (db.spflis.filter fun sp =>
    ilikeContains sp.cityfrom from_city && ilikeContains sp.cityto to_city).filterMap
    fun sp =>
    if !(sp.fldate.dateOnly == target_date) then none
    else
      match sp.flightOf db with
      | none => none
      | some sflight =>
          let available := max 0 (sflight.seatsmax - ((sp.bookingsOf db).length : Int))
          if available ≤ 0 then none
          else some (mkSearchItem db sp sflight)

/-- The dict built for one schedule row inside `get_all_flights`. -/
def mkListingItem (db : DB) (sp : SPFli) (f : SFlight) : FlightItem :=
  { carrid := sp.carrid, connid := sp.connid, fldate := sp.fldate.isoformat,
    cityfrom := sp.cityfrom, cityto := sp.cityto,
    available_seats := max 0 (f.seatsmax - ((sp.bookingsOf db).length : Int)),
    total_seats := some f.seatsmax,
    price := f.price.getD "0.00", currency := f.currency.getD "EUR" }

/-- Stable insertion keeping the list sorted by the `fldate` string. -/
def insertByFldate (x : FlightItem) : List FlightItem → List FlightItem
  | [] => [x]
  | y :: ys =>
    if y.fldate ≤ x.fldate then y :: insertByFldate x ys else x :: y :: ys

/-- `result.sort(key=lambda x: x["fldate"])`: sort by the ISO-8601
departure string. -/
def sortByFldate : List FlightItem → List FlightItem
  | [] => []
  | x :: xs => insertByFldate x (sortByFldate xs)

/-- `get_all_flights`: every schedule row with a linked flight (rows
without one skipped), shaped with availability and total seats, sorted
ascending by the departure string. -/
def get_all_flights (db : DB) : List FlightItem :=
  sortByFldate (db.spflis.filterMap fun sp =>
    match sp.flightOf db with
    | none => none
    | some sflight => some (mkListingItem db sp sflight))

/-! ### Bookings router (src/routers/bookings.py) -/

/-- One element of the `AllBookingsResponse` lists. -/
structure BookingItem where
  bookid : Int
  carrname : String
  cityfrom : String
  airpfrom : String
  cityto : String
  airpto : String
  fltime : Int
  price : String
  currency : String
deriving DecidableEq, Repr

/-- The chain `book.schedule` / `spfli.flight` / `sflight.carrier` and the
dict both read endpoints build from it.  `none` models the unhandled
`AttributeError` the Python raises when dereferencing an absent schedule,
flight or carrier. -/
def bookingItemOf (db : DB) (book : SBook) : Option BookingItem :=
  match book.scheduleOf db with
  | none => none
  | some spfli =>
    match spfli.flightOf db with
    | none => none
    | some sflight =>
      match sflight.carrierOf db with
      | none => none
      | some scarr =>
          some { bookid := book.bookid, carrname := scarr.carrname,
                 cityfrom := spfli.cityfrom, airpfrom := spfli.airpfrom,
                 cityto := spfli.cityto, airpto := spfli.airpto,
                 fltime := spfli.fltime, price := sflight.price.getD "0.00",
                 currency := sflight.currency.getD "EUR" }

/-- Outcome of `GET /api_v1/bookings`: the item list, or an unhandled
error escaping the handler. -/
inductive AllBookingsResult where
  | ok (items : List BookingItem)
  | error
deriving DecidableEq, Repr

/-- `get_all_bookings`: shape every booking row; the first row whose
schedule/flight/carrier chain is broken raises out of the loop. -/
def get_all_bookings (db : DB) : AllBookingsResult :=
  match db.sbooks.mapM (bookingItemOf db) with
  | none => .error
  | some items => .ok items

/-- Outcome of `GET /api_v1/booking/{bookid}`. -/
inductive GetBookingResult where
  | notFound
  | ok (item : BookingItem)
  | error
deriving DecidableEq, Repr

/-- `get_booking_by_id`: the *first* booking row whose `bookid` matches
the path parameter, regardless of which schedule it belongs to. -/
def get_booking_by_id (db : DB) (bookid : Int) : GetBookingResult :=
  match db.sbooks.find? fun b => b.bookid == bookid with
  | none => .notFound
  | some book =>
    match bookingItemOf db book with
    | none => .error
    | some item => .ok item

/-- The `BookRequest` schema: carrier, connection, departure timestamp. -/
structure BookRequest where
  carrid : String
  connid : String
  fldate : DateTime
deriving DecidableEq, Repr

/-- Outcome of `POST /api_v1/booking`. -/
inductive CreateBookingResult where
  | notFound
  | noSeats
  | created (booking_id : Int)
deriving DecidableEq, Repr

/-- Python `max(l, default=d)`. -/
def pyMaxD (l : List Int) (d : Int) : Int :=
  match l with
  | [] => d
  | x :: xs => xs.foldl max x

/-- `create_booking` (src/routers/bookings.py lines 133-205): look up the
schedule by the request triple; 404 when it or its linked flight is
missing; availability from the cache when present, otherwise recomputed
from the store and written back with a 3600-second time-to-live; 400 when
the count is not positive; otherwise insert the booking (client "100",
the caller's user id, booking number one past the schedule's maximum)
and write availability minus one back to the cache. -/
def create_booking (db : DB) (cache : Cache) (req : BookRequest)
    (userId : Int) : CreateBookingResult × DB × Cache :=
  let cache_date_str := req.fldate.strftimeYmdHms
  match db.spflis.find? fun sp =>
      sp.carrid == req.carrid && sp.connid == req.connid && sp.fldate == req.fldate with
  | none => (.notFound, db, cache)
  | some spfli =>
    match spfli.flightOf db with
    | none => (.notFound, db, cache)
    | some sflight =>
      let availCache : Int × Cache :=
        match get_available_seats_from_cache cache req.carrid req.connid cache_date_str with
        | some a => (a, cache)
        | none =>
          let booked : Int := ((spfli.bookingsOf db).length : Int)
          let a := max 0 (sflight.seatsmax - booked)
          (a, set_available_seats_in_cache cache req.carrid req.connid cache_date_str a 3600)
      let available := availCache.1
      let cache1 := availCache.2
      if available ≤ 0 then (.noSeats, db, cache1)
      else
        let new_bookid := pyMaxD ((spfli.bookingsOf db).map (·.bookid)) 0 + 1
        let booking : SBook :=
          { mandt := "100", carrid := req.carrid, connid := req.connid,
            fldate := req.fldate, bookid := new_bookid,
            custom_mandt := "100", custom_id := userId }
        let db1 := { db with sbooks := db.sbooks ++ [booking] }
        let cache2 := set_available_seats_in_cache cache1 req.carrid req.connid
          cache_date_str (available - 1) 3600
        (.created new_bookid, db1, cache2)

/-- Outcome of `DELETE /api_v1/booking/{bookid}`. -/
inductive DeleteBookingResult where
  | notFound
  | forbidden
  | deleted
deriving DecidableEq, Repr

/-- Drop the first element satisfying `p` (the ORM deletes exactly the
row object it fetched). -/
def removeFirst (p : α → Bool) : List α → List α
  | [] => []
  | x :: xs => if p x then xs else x :: removeFirst p xs

/-- `delete_booking`: fetch the *first* row matching `bookid` alone; 404
when none, 403 when that row's customer id is not the caller's id,
otherwise delete it. -/
def delete_booking (db : DB) (bookid : Int) (userId : Int) :
    DeleteBookingResult × DB :=
  match db.sbooks.find? fun b => b.bookid == bookid with
  | none => (.notFound, db)
  | some book =>
    if !(book.custom_id == userId) then (.forbidden, db)
    else (.deleted, { db with sbooks := removeFirst (fun b => b.bookid == bookid) db.sbooks })

/-! ### Data-seeding utility (fill_data.py)

`main` runs against one ORM session.  `session.add` queues a pending row,
`session.commit` makes every pending row durable, `session.rollback`
discards the pending rows and keeps the committed ones.  Queries see the
committed rows plus the pending ones (autoflush). -/

/-- Append the rows of `b` after those of `a`, table by table. -/
def DB.append (a b : DB) : DB :=
  ⟨a.scarrs ++ b.scarrs, a.sairports ++ b.sairports, a.sflights ++ b.sflights,
   a.spflis ++ b.spflis, a.sbooks ++ b.sbooks, a.scusts ++ b.scusts,
   a.users ++ b.users⟩

/-- An ORM session: the durable store plus the rows added since the last
commit. -/
structure Session where
  committed : DB
  pending : DB
deriving DecidableEq, Repr

def Session.commit (s : Session) : Session :=
  ⟨s.committed.append s.pending, DB.empty⟩

def Session.rollback (s : Session) : Session :=
  ⟨s.committed, DB.empty⟩

/-- What `session.query` sees: committed plus pending rows. -/
def Session.view (s : Session) : DB :=
  s.committed.append s.pending

/-- The fixed carriers of fill_data.py line 60. -/
def seedCarrierList : List (String × String) :=
  [("SU", "Aeroflot"), ("LH", "Lufthansa"), ("BA", "British Airways")]

/-- The fixed airports of fill_data.py line 66. -/
def seedAirportList : List (Int × String) :=
  [(1001, "Moscow"), (1002, "London"), (1003, "Paris"), (1004, "Berlin")]

/-- One iteration of the carrier loop: add the carrier unless a row with
its carrid already exists. -/
def carrStep (s : Session) (p : String × String) : Session :=
  if (s.view.scarrs.find? fun c => c.carrid == p.1).isSome then s
  else { s with pending := { s.pending with scarrs := s.pending.scarrs ++ [⟨"100", p.1, p.2⟩] } }

/-- Carrier phase of fill_data.py lines 60-63. -/
def seedCarriers (s : Session) : Session :=
  seedCarrierList.foldl carrStep s

/-- One iteration of the airport loop: add the airport unless a row with
its id already exists. -/
def airpStep (s : Session) (p : Int × String) : Session :=
  if (s.view.sairports.find? fun a => a.id == p.1).isSome then s
  else { s with pending := { s.pending with sairports := s.pending.sairports ++ [⟨"100", p.1, p.2⟩] } }

/-- Airport phase of fill_data.py lines 66-69. -/
def seedAirports (s : Session) : Session :=
  seedAirportList.foldl airpStep s

/-- One iteration's random draws in the flight-generation loop of
fill_data.py lines 73-110: the chosen carrier/airports, departure, price,
capacity and duration. -/
structure GenFlight where
  carrid : String
  connid : String
  fldate : DateTime
  price : Option String
  seatsmax : Int
  airpfrom_id : Int
  airpto_id : Int
  depName : String
  arrName : String
  fltime : Int
deriving DecidableEq, Repr

/-- `name[:3].upper()`. -/
def upper3 (s : String) : String :=
  ⟨(s.data.take 3).map Char.toUpper⟩

/-- The `SFlight` row built from one draw (fill_data.py lines 84-93). -/
def GenFlight.flightRow (g : GenFlight) : SFlight :=
  ⟨"100", g.carrid, g.connid, g.fldate, g.price, some "EUR", g.seatsmax,
   g.airpfrom_id, g.airpto_id⟩

/-- The `SPFli` row built from the same draw (fill_data.py lines 98-109). -/
def GenFlight.spfliRow (g : GenFlight) : SPFli :=
  ⟨"100", g.carrid, g.connid, g.fldate, "RU", g.depName, upper3 g.depName,
   "UK", g.arrName, upper3 g.arrName, g.fltime⟩

/-- One iteration of the flight loop: add the flight row, commit (which
also makes the previous iteration's still-pending schedule row durable),
then add the schedule row *without* committing it. -/
def flightStep (s : Session) (g : GenFlight) : Session :=
  let s1 := { s with pending := { s.pending with sflights := s.pending.sflights ++ [g.flightRow] } }
  let s2 := s1.commit
  { s2 with pending := { s2.pending with spflis := s2.pending.spflis ++ [g.spfliRow] } }

/-- The flight loop of fill_data.py lines 73-110. -/
def seedFlights (s : Session) (gens : List GenFlight) : Session :=
  gens.foldl flightStep s

/-- One entry of the `test_users` list (fill_data.py lines 115-119). -/
structure UserSpec where
  username : String
  email : String
  password : String
deriving DecidableEq, Repr

/-- The user phase (fill_data.py lines 121-151).  `failAt = some k`
places the exception the surrounding `try` catches at the start of
iteration `k` (0-based; `k` = number of users means it strikes the final
commit); `none` means no exception.  For each user not already present by
username or email a user row is added and committed, then the matching
`scust` row is added (committed by a later commit).  Returns whether an
exception was raised and the session at that moment. -/
def seedUsersGo (hash : String → String) (s : Session)
    (specs : List UserSpec) (idx : Nat) (failAt : Option Nat)
    (nextId : Int) : Bool × Session :=
  match specs with
  | [] =>
    if failAt == some idx then (true, s) else (false, s.commit)
  | u :: rest =>
    if failAt == some idx then (true, s)
    else
      if (s.view.users.find? fun x =>
          x.username == u.username || x.email == u.email).isSome then
        seedUsersGo hash s rest (idx + 1) failAt nextId
      else
        let user : User := ⟨nextId, u.username, u.email, hash u.password, false⟩
        let s1 := { s with pending := { s.pending with users := s.pending.users ++ [user] } }
        let s2 := s1.commit
        let s3 := { s2 with pending := { s2.pending with scusts := s2.pending.scusts ++ [⟨"100", user.id, u.username⟩] } }
        seedUsersGo hash s3 rest (idx + 1) failAt (nextId + 1)

/-- Outcome of one run of `fill_data.main`: the durable store on normal
exit, or — when the user phase raised — the durable store after the
`except` branch rolled the pending rows back, logged and re-raised. -/
inductive SeedOutcome where
  | ok (db : DB)
  | raised (db : DB)
deriving DecidableEq, Repr

def SeedOutcome.db : SeedOutcome → DB
  | .ok d => d
  | .raised d => d

def SeedOutcome.isRaised : SeedOutcome → Bool
  | .ok _ => false
  | .raised _ => true

/-- `fill_data.main` over an initial store: carrier/airport phase then one
commit (line 70), the flight loop, then the user phase guarded by
try/except (exceptions modelled by `failAt` as in `seedUsersGo`). -/
def fill_data_main (hash : String → String) (gens : List GenFlight)
    (specs : List UserSpec) (failAt : Option Nat) (nextId : Int)
    (init : DB) : SeedOutcome :=
  match seedUsersGo hash
      (seedFlights ((seedAirports (seedCarriers ⟨init, DB.empty⟩)).commit) gens)
      specs 0 failAt nextId with
  | (true, s) => .raised s.rollback.committed
  | (false, s) => .ok s.committed

/-! ### Spec-side vocabulary

Declarative restatements of the booking-path conditions, written from the
spec's words, to compare the router code against. -/

/-- The request's carrier, connection and departure match a schedule row. -/
def reqMatchesSPFli (req : BookRequest) (sp : SPFli) : Prop :=
  sp.carrid = req.carrid ∧ sp.connid = req.connid ∧ sp.fldate = req.fldate

/-- The request's carrier, connection and departure match a flight row. -/
def reqMatchesFlight (req : BookRequest) (f : SFlight) : Prop :=
  f.carrid = req.carrid ∧ f.connid = req.connid ∧ f.fldate = req.fldate

/-- Some schedule row with the requested carrier, connection and departure
timestamp has a linked flight (the schedule-to-flight join matches the
same triple, so the linked flight is any flight row with it). -/
def hasBookableFlight (db : DB) (req : BookRequest) : Prop :=
  ∃ sp ∈ db.spflis, reqMatchesSPFli req sp ∧ ∃ f ∈ db.sflights, reqMatchesFlight req f

/-- The existing bookings of the requested schedule. -/
def reqBookings (db : DB) (req : BookRequest) : List SBook :=
  db.sbooks.filter fun b =>
    b.carrid == req.carrid && b.connid == req.connid && b.fldate == req.fldate

/-- The flight row the (carrid, connid, fldate) join resolves for the
request. -/
def reqFlight (db : DB) (req : BookRequest) : Option SFlight :=
  db.sflights.find? fun f =>
    f.carrid == req.carrid && f.connid == req.connid && f.fldate == req.fldate

/-- Availability as the spec words it: the cached count when one exists
for the derived key, else `max 0 (max_seats − existing bookings)` of the
linked flight (0 in the vacuous no-flight case, where the code 404s
before using it). -/
def determinedAvailability (db : DB) (cache : Cache) (req : BookRequest) : Int :=
  match get_available_seats_from_cache cache req.carrid req.connid
      req.fldate.strftimeYmdHms with
  | some a => a
  | none =>
    match reqFlight db req with
    | some f => max 0 (f.seatsmax - ((reqBookings db req).length : Int))
    | none => 0

/-! ### Claim C7 — indistinguishable authentication failures -/

/-- Claim C7: authenticating with a username that does not exist and
authenticating with an existing username whose password does not verify
produce the same observable outcome — `None` from `authenticate_user`,
hence the same 401 from the login endpoint. -/
theorem claim_C7 (verify : String → String → Bool) (db : DB)
    (u1 p1 u2 p2 : String)
    (h1 : get_user_by_username db u1 = none)
    (h2 : ∀ user, get_user_by_username db u2 = some user →
      verify p2 user.hashed_password = false) :
    authenticate_user verify db u1 p1 = none ∧
    authenticate_user verify db u2 p2 = none ∧
    (∀ now, login verify db u1 p1 now = login verify db u2 p2 now) := by
  have a1 : authenticate_user verify db u1 p1 = none := by
    unfold authenticate_user
    rw [h1]
  have a2 : authenticate_user verify db u2 p2 = none := by
    unfold authenticate_user
    cases h : get_user_by_username db u2 with
    | none => rfl
    | some user => simp [h2 user h]
  refine ⟨a1, a2, fun now => ?_⟩
  unfold login
  rw [a1, a2]

/-- A store holding exactly one user, for exercising claim C7. -/
def dbC7 : DB :=
  { DB.empty with users := [⟨1, "bob", "bob@example.com", "HASH", false⟩] }

/-- Witness for claim C7: in `dbC7`, the unknown user `ghost` and the
known user `bob` with a non-verifying password are indistinguishable. -/
theorem claim_C7_witness :
    authenticate_user (fun _ _ => false) dbC7 "ghost" "pw" = none ∧
    authenticate_user (fun _ _ => false) dbC7 "bob" "wrong" = none ∧
    login (fun _ _ => false) dbC7 "ghost" "pw" 0 =
      login (fun _ _ => false) dbC7 "bob" "wrong" 0 := by
  have h := claim_C7 (fun _ _ => false) dbC7 "ghost" "pw" "bob" "wrong"
    (by decide) (fun user _ => rfl)
  exact ⟨h.1, h.2.1, h.2.2 0⟩

/-! ### Claim C4 — token lifetimes (corrected) -/

/-- Counterexample to claim C4: the register endpoint issues its token
with *no* explicit lifetime, so the token expires 15 minutes (900
seconds) after issuance, not 30 minutes as the claim (following §4.5)
asserts for every caller in the authentication router. -/
theorem claim_C4_counterexample :
    (register (fun s => s) DB.empty ⟨"alice", "alice@example.com", "secret"⟩ 1 0).1 =
      .token ⟨[("sub", "alice")], 900⟩ ∧ (900 : Nat) ≠ 30 * 60 :=
  ⟨rfl, by decide⟩

/-- Claim C4 (amended): a token issued without an explicit lifetime
expires 15 minutes after issuance; the login endpoint explicitly requests
a 30-minute lifetime, but the register endpoint passes no lifetime and
its token therefore expires after the 15-minute default (as §4.9 states;
§4.5's "callers in the authentication router explicitly request 30
minutes" does not hold for register). -/
theorem claim_C4 :
    (∀ (data : List (String × String)) (now : Nat),
      (create_access_token data now none).exp = now + 15 * 60) ∧
    (∀ (hash : String → String) (db : DB) (u : UserRegister) (newId : Int)
      (now : Nat) (t : TokenPayload) (db2 : DB),
      register hash db u newId now = (.token t, db2) → t.exp = now + 15 * 60) ∧
    (∀ (verify : String → String → Bool) (db : DB)
      (username password : String) (user : User) (now : Nat),
      authenticate_user verify db username password = some user →
      ∃ t, login verify db username password now = .token t ∧
        t.exp = now + 30 * 60) := by
  refine ⟨fun data now => rfl, ?_, ?_⟩
  · intro hash db u newId now t db2 h
    unfold register at h
    split at h
    · exact absurd (congrArg Prod.fst h) (by simp)
    · split at h
      · exact absurd (congrArg Prod.fst h) (by simp)
      · have := congrArg Prod.fst h
        simp only [RegisterResult.token.injEq] at this
        rw [← this]
        rfl
  · intro verify db username password user now h
    refine ⟨create_access_token [("sub", user.username)] now
      (some (ACCESS_TOKEN_EXPIRE_MINUTES * 60)), ?_, rfl⟩
    unfold login
    rw [h]

/-- Witness for claim C4: concrete instances of all three conjuncts. -/
theorem claim_C4_witness :
    (create_access_token [("sub", "alice")] 100 none).exp = 100 + 15 * 60 ∧
    ((register (fun s => s) DB.empty ⟨"alice", "alice@example.com", "secret"⟩ 1 50).1 =
        .token ⟨[("sub", "alice")], 950⟩ →
      (950 : Nat) = 50 + 15 * 60) ∧
    ∃ t, login (fun _ _ => true) dbC7 "bob" "pw" 7 = .token t ∧
      t.exp = 7 + 30 * 60 := by
  refine ⟨claim_C4.1 [("sub", "alice")] 100, ?_, ?_⟩
  · intro _
    exact claim_C4.2.1 (fun s => s) DB.empty ⟨"alice", "alice@example.com", "secret"⟩
      1 50 ⟨[("sub", "alice")], 950⟩
      ((register (fun s => s) DB.empty ⟨"alice", "alice@example.com", "secret"⟩ 1 50).2)
      (by rfl)
  · exact claim_C4.2.2 (fun _ _ => true) dbC7 "bob" "pw"
      ⟨1, "bob", "bob@example.com", "HASH", false⟩ 7 (by decide)

/-! ### Claim C8 — booking lookup by number alone -/

def dtC8a : DateTime := ⟨2025, 6, 1, 10, 0, 0⟩
def dtC8b : DateTime := ⟨2025, 6, 2, 12, 0, 0⟩

/-- A store holding two bookings that share booking number 1 on two
different schedules, owned by customers 10 and 20. -/
def dbC8 : DB :=
  { DB.empty with
    scarrs := [⟨"100", "AA", "Alpha Air"⟩, ⟨"100", "BB", "Beta Air"⟩],
    sflights := [⟨"100", "AA", "0001", dtC8a, some "120.00", some "EUR", 100, 1001, 1002⟩,
                 ⟨"100", "BB", "0002", dtC8b, some "150.00", some "EUR", 90, 1002, 1001⟩],
    spflis := [⟨"100", "AA", "0001", dtC8a, "RU", "Moscow", "MOS", "UK", "London", "LON", 200⟩,
               ⟨"100", "BB", "0002", dtC8b, "UK", "London", "LON", "RU", "Moscow", "MOS", 210⟩],
    sbooks := [⟨"100", "AA", "0001", dtC8a, 1, "100", 10⟩,
               ⟨"100", "BB", "0002", dtC8b, 1, "100", 20⟩],
    scusts := [⟨"100", 10, "ten"⟩, ⟨"100", 20, "twenty"⟩] }

/-- Claim C8: both endpoints select the first booking row matching the
path booking number alone.  In `dbC8` two bookings on different schedules
share number 1; get-by-number returns the first one (the Alpha Air
booking), and the owner of the second one (customer 20) is refused
deletion with 403 because the first-matched row belongs to customer 10. -/
theorem claim_C8 :
    (⟨"100", "AA", "0001", dtC8a, 1, "100", 10⟩ : SBook) ∈ dbC8.sbooks ∧
    (⟨"100", "BB", "0002", dtC8b, 1, "100", 20⟩ : SBook) ∈ dbC8.sbooks ∧
    get_booking_by_id dbC8 1 =
      .ok ⟨1, "Alpha Air", "Moscow", "MOS", "London", "LON", 200, "120.00", "EUR"⟩ ∧
    delete_booking dbC8 1 20 = (.forbidden, dbC8) := by
  refine ⟨by decide, by decide, rfl, rfl⟩

/-! ### Claim C9 — cache hit trusted over the store -/

def dtC9 : DateTime := ⟨2025, 7, 1, 9, 30, 0⟩

def reqC9 : BookRequest := ⟨"SU", "0001", dtC9⟩

/-- A store whose only flight has 1 seat and already 1 booking. -/
def dbC9 : DB :=
  { DB.empty with
    scarrs := [⟨"100", "SU", "Aeroflot"⟩],
    sflights := [⟨"100", "SU", "0001", dtC9, some "99.00", some "EUR", 1, 1001, 1002⟩],
    spflis := [⟨"100", "SU", "0001", dtC9, "RU", "Moscow", "MOS", "UK", "London", "LON", 180⟩],
    sbooks := [⟨"100", "SU", "0001", dtC9, 1, "100", 10⟩],
    scusts := [⟨"100", 10, "ten"⟩, ⟨"100", 7, "seven"⟩] }

/-- A reachable cache holding a stale positive count for the flight. -/
def cacheC9 : Cache :=
  ⟨true, [⟨seatsKey "SU" "0001" dtC9.strftimeYmdHms, 5, 3600⟩]⟩

/-- Claim C9: on a cache hit create booking decides availability solely
from the cached count.  In `dbC9`/`cacheC9` the cache says 5 seats while
the store has `max_seats − bookings = 1 − 1 = 0`; the call still succeeds
and inserts a second booking, so the schedule's booking count (2) exceeds
the flight's maximum seats (1) without any concurrency. -/
theorem claim_C9 :
    get_available_seats_from_cache cacheC9 "SU" "0001" dtC9.strftimeYmdHms = some 5 ∧
    (0 : Int) < 5 ∧
    reqFlight dbC9 reqC9 =
      some ⟨"100", "SU", "0001", dtC9, some "99.00", some "EUR", 1, 1001, 1002⟩ ∧
    ((1 : Int) - ((reqBookings dbC9 reqC9).length : Int) ≤ 0) ∧
    (create_booking dbC9 cacheC9 reqC9 7).1 = .created 2 ∧
    ((reqBookings (create_booking dbC9 cacheC9 reqC9 7).2.1 reqC9).length : Int) = 2 ∧
    (1 : Int) < 2 := by
  refine ⟨rfl, by decide, rfl, by decide, rfl, by decide, by decide⟩

/-! ### Claim C10 — unguarded dereference in the booking read endpoints -/

/-- A booking row whose schedule, flight and carrier all resolve. -/
def wellFormedBooking (db : DB) (book : SBook) : Prop :=
  ∃ sp ∈ db.spflis, book.scheduleOf db = some sp ∧
    ∃ f ∈ db.sflights, sp.flightOf db = some f ∧
      ∃ c ∈ db.scarrs, f.carrierOf db = some c

instance (db : DB) (book : SBook) : Decidable (wellFormedBooking db book) := by
  unfold wellFormedBooking
  infer_instance

lemma bookingItemOf_isSome_of_wellFormed (db : DB) (book : SBook)
    (h : wellFormedBooking db book) : (bookingItemOf db book).isSome := by
  obtain ⟨sp, _, hsp, f, _, hf, c, _, hc⟩ := h
  simp [bookingItemOf, hsp, hf, hc]

lemma mapM_isSome {α β : Type} (f : α → Option β) (l : List α)
    (h : ∀ a ∈ l, (f a).isSome) :
    ∃ l2, l.mapM f = some l2 ∧ l2.length = l.length := by
  induction l with
  | nil => exact ⟨[], rfl, rfl⟩
  | cons a as ih =>
    obtain ⟨b, hb⟩ := Option.isSome_iff_exists.mp (h a (by simp))
    obtain ⟨l2, hl2, hlen⟩ := ih fun x hx => h x (by simp [hx])
    refine ⟨b :: l2, ?_, by simp [hlen]⟩
    rw [List.mapM_cons, hb, hl2]
    rfl

def dtC10 : DateTime := ⟨2025, 8, 1, 8, 0, 0⟩

/-- A store holding a booking whose schedule exists but has no linked
flight row. -/
def dbC10 : DB :=
  { DB.empty with
    spflis := [⟨"100", "LH", "0003", dtC10, "RU", "Paris", "PAR", "UK", "Berlin", "BER", 120⟩],
    sbooks := [⟨"100", "LH", "0003", dtC10, 1, "100", 10⟩] }

/-- Claim C10: list-all-bookings and get-booking-by-number dereference
schedule, flight and carrier without an absence guard.  They produce a
well-formed item for every booking whenever every booking's chain
resolves; in `dbC10`, whose single booking has a schedule with no linked
flight, both endpoints instead escape with an unhandled error. -/
theorem claim_C10 :
    (∀ db : DB, (∀ book ∈ db.sbooks, wellFormedBooking db book) →
      (∃ items, get_all_bookings db = .ok items ∧
        items.length = db.sbooks.length) ∧
      ∀ bookid, get_booking_by_id db bookid ≠ .error) ∧
    (∃ sp ∈ dbC10.spflis,
      (⟨"100", "LH", "0003", dtC10, 1, "100", 10⟩ : SBook).scheduleOf dbC10 = some sp ∧
      sp.flightOf dbC10 = none) ∧
    get_all_bookings dbC10 = .error ∧
    get_booking_by_id dbC10 1 = .error := by
  refine ⟨?_, by decide, rfl, rfl⟩
  intro db h
  constructor
  · obtain ⟨items, hm, hlen⟩ := mapM_isSome (bookingItemOf db) db.sbooks
      fun b hb => bookingItemOf_isSome_of_wellFormed db b (h b hb)
    refine ⟨items, ?_, hlen⟩
    unfold get_all_bookings
    rw [hm]
  · intro bookid
    unfold get_booking_by_id
    cases hfind : db.sbooks.find? fun b => b.bookid == bookid with
    | none => simp
    | some book =>
      have hmem : book ∈ db.sbooks := List.mem_of_find?_eq_some hfind
      obtain ⟨item, hitem⟩ := Option.isSome_iff_exists.mp
        (bookingItemOf_isSome_of_wellFormed db book (h book hmem))
      simp [hitem]

/-- Witness for claim C10: in `dbC8` every booking's chain resolves, so
the listing succeeds with one item per booking and no lookup errors. -/
theorem claim_C10_witness :
    (∃ items, get_all_bookings dbC8 = .ok items ∧
      items.length = dbC8.sbooks.length) ∧
    get_booking_by_id dbC8 5 ≠ .error := by
  have h := claim_C10.1 dbC8 (by decide)
  exact ⟨h.1, h.2 5⟩

/-! ### A declarative model of `create_booking` (for claims C1 and C2) -/

instance (req : BookRequest) (sp : SPFli) : Decidable (reqMatchesSPFli req sp) := by
  unfold reqMatchesSPFli
  infer_instance

instance (req : BookRequest) (f : SFlight) : Decidable (reqMatchesFlight req f) := by
  unfold reqMatchesFlight
  infer_instance

instance (db : DB) (req : BookRequest) : Decidable (hasBookableFlight db req) := by
  unfold hasBookableFlight
  infer_instance

lemma spfliPred_iff (req : BookRequest) (sp : SPFli) :
    ((sp.carrid == req.carrid && sp.connid == req.connid && sp.fldate == req.fldate) = true) ↔
      reqMatchesSPFli req sp := by
  simp [reqMatchesSPFli, and_assoc]

lemma flightPred_iff (req : BookRequest) (f : SFlight) :
    ((f.carrid == req.carrid && f.connid == req.connid && f.fldate == req.fldate) = true) ↔
      reqMatchesFlight req f := by
  simp [reqMatchesFlight, and_assoc]

lemma flightOf_eq_reqFlight {db : DB} {req : BookRequest} {sp : SPFli}
    (h : reqMatchesSPFli req sp) : sp.flightOf db = reqFlight db req := by
  obtain ⟨h1, h2, h3⟩ := h
  unfold SPFli.flightOf reqFlight
  rw [h1, h2, h3]

lemma bookingsOf_eq_reqBookings {db : DB} {req : BookRequest} {sp : SPFli}
    (h : reqMatchesSPFli req sp) : sp.bookingsOf db = reqBookings db req := by
  obtain ⟨h1, h2, h3⟩ := h
  unfold SPFli.bookingsOf reqBookings
  rw [h1, h2, h3]

/-- The cache after the availability lookup step: unchanged on a hit,
populated with the recomputed count (time-to-live 3600) on a miss. -/
def cacheAfterLookup (db : DB) (cache : Cache) (req : BookRequest) : Cache :=
  match get_available_seats_from_cache cache req.carrid req.connid
      req.fldate.strftimeYmdHms with
  | some _ => cache
  | none => set_available_seats_in_cache cache req.carrid req.connid
      req.fldate.strftimeYmdHms (determinedAvailability db cache req) 3600

/-- One more than the maximum existing booking number of the requested
schedule (1 when none exist). -/
def newBookid (db : DB) (req : BookRequest) : Int :=
  pyMaxD ((reqBookings db req).map (·.bookid)) 0 + 1

/-- The row `create_booking` inserts on success. -/
def newBooking (db : DB) (req : BookRequest) (uid : Int) : SBook :=
  ⟨"100", req.carrid, req.connid, req.fldate, newBookid db req, "100", uid⟩

/-- Declarative model of `create_booking`, written from the spec's words:
404 when no matching schedule has a linked flight; otherwise 400 with the
lookup-updated cache when the determined availability is not positive;
otherwise insert the next-numbered booking and write the decremented
count back. -/
def create_booking_model (db : DB) (cache : Cache) (req : BookRequest)
    (uid : Int) : CreateBookingResult × DB × Cache :=
  if hasBookableFlight db req then
    if determinedAvailability db cache req ≤ 0 then
      (.noSeats, db, cacheAfterLookup db cache req)
    else
      (.created (newBookid db req),
       { db with sbooks := db.sbooks ++ [newBooking db req uid] },
       set_available_seats_in_cache (cacheAfterLookup db cache req) req.carrid
         req.connid req.fldate.strftimeYmdHms
         (determinedAvailability db cache req - 1) 3600)
  else (.notFound, db, cache)

lemma create_booking_eq_model (db : DB) (cache : Cache) (req : BookRequest)
    (uid : Int) :
    create_booking db cache req uid = create_booking_model db cache req uid := by
  unfold create_booking create_booking_model
  cases hA : db.spflis.find? fun sp =>
      sp.carrid == req.carrid && sp.connid == req.connid && sp.fldate == req.fldate with
  | none =>
    have hno : ¬ hasBookableFlight db req := by
      rintro ⟨sp, hmem, hm, -⟩
      exact (List.find?_eq_none.mp hA sp hmem) ((spfliPred_iff req sp).mpr hm)
    simp [hno]
  | some sp =>
    have hp := List.find?_some hA
    have hm : reqMatchesSPFli req sp := (spfliPred_iff req sp).mp hp
    have hmem : sp ∈ db.spflis := List.mem_of_find?_eq_some hA
    cases hB : sp.flightOf db with
    | none =>
      have hreq : reqFlight db req = none := (flightOf_eq_reqFlight hm) ▸ hB
      have hno : ¬ hasBookableFlight db req := by
        rintro ⟨sp', -, -, f, hfmem, hfm⟩
        exact (List.find?_eq_none.mp hreq f hfmem) ((flightPred_iff req f).mpr hfm)
      simp [hno, hB]
    | some f =>
      have hreq : reqFlight db req = some f := (flightOf_eq_reqFlight hm) ▸ hB
      have hpf := List.find?_some hreq
      have hyes : hasBookableFlight db req :=
        ⟨sp, hmem, hm, f, List.mem_of_find?_eq_some hreq,
          (flightPred_iff req f).mp hpf⟩
      have hbk : sp.bookingsOf db = reqBookings db req := bookingsOf_eq_reqBookings hm
      cases hC : get_available_seats_from_cache cache req.carrid req.connid
          req.fldate.strftimeYmdHms with
      | some a =>
        have hdet : determinedAvailability db cache req = a := by
          unfold determinedAvailability
          rw [hC]
        have hcl : cacheAfterLookup db cache req = cache := by
          unfold cacheAfterLookup
          rw [hC]
        by_cases ha : a ≤ 0
        · simp [hB, hC, hyes, hdet, hcl, ha]
        · simp [hB, hC, hyes, hdet, hcl, ha, newBooking, newBookid, hbk]
      | none =>
        have hdet : determinedAvailability db cache req =
            max 0 (f.seatsmax - ((reqBookings db req).length : Int)) := by
          unfold determinedAvailability
          rw [hC, hreq]
        have hcl : cacheAfterLookup db cache req =
            set_available_seats_in_cache cache req.carrid req.connid
              req.fldate.strftimeYmdHms (determinedAvailability db cache req) 3600 := by
          unfold cacheAfterLookup
          rw [hC]
        by_cases ha : max 0 (f.seatsmax - ((reqBookings db req).length : Int)) ≤ 0
        · simp [hB, hC, hyes, hdet, hcl, ha, hbk]
        · simp [hB, hC, hyes, hdet, hcl, ha, hbk, newBooking, newBookid]

/-! ### Arithmetic facts about `pyMaxD` and the cache -/

lemma le_foldl_max (xs : List Int) (x : Int) : x ≤ xs.foldl max x := by
  induction xs generalizing x with
  | nil => exact le_refl x
  | cons y ys ih =>
    simp only [List.foldl_cons]
    exact le_trans (le_max_left x y) (ih (max x y))

lemma mem_le_foldl_max (xs : List Int) (x a : Int) (h : a ∈ xs) :
    a ≤ xs.foldl max x := by
  induction xs generalizing x with
  | nil => cases h
  | cons y ys ih =>
    simp only [List.foldl_cons]
    rcases List.mem_cons.mp h with rfl | h2
    · exact le_trans (le_max_right x a) (le_foldl_max ys (max x a))
    · exact ih (max x y) h2

lemma foldl_max_mem (xs : List Int) (x : Int) :
    xs.foldl max x = x ∨ xs.foldl max x ∈ xs := by
  induction xs generalizing x with
  | nil => exact Or.inl rfl
  | cons y ys ih =>
    simp only [List.foldl_cons]
    rcases ih (max x y) with h | h
    · rcases max_choice x y with hm | hm
      · exact Or.inl (by rw [h, hm])
      · exact Or.inr (by rw [h, hm]; exact List.mem_cons_self y ys)
    · exact Or.inr (List.mem_cons_of_mem y h)

lemma pyMaxD_le_mem {l : List Int} {a : Int} (d : Int) (h : a ∈ l) :
    a ≤ pyMaxD l d := by
  cases l with
  | nil => cases h
  | cons x xs =>
    unfold pyMaxD
    show a ≤ xs.foldl max x
    rcases List.mem_cons.mp h with rfl | h2
    · exact le_foldl_max xs a
    · exact mem_le_foldl_max xs x a h2

lemma pyMaxD_mem {l : List Int} (d : Int) (h : l ≠ []) : pyMaxD l d ∈ l := by
  cases l with
  | nil => exact absurd rfl h
  | cons x xs =>
    unfold pyMaxD
    show xs.foldl max x ∈ x :: xs
    rcases foldl_max_mem xs x with h2 | h2
    · rw [h2]; exact List.mem_cons_self x xs
    · exact List.mem_cons_of_mem x h2

lemma set_cache_available (cache : Cache) (carr conn str : String) (v : Int)
    (t : Nat) :
    (set_available_seats_in_cache cache carr conn str v t).available =
      cache.available := by
  unfold set_available_seats_in_cache
  split <;> rfl

lemma get_after_set (cache : Cache) (carr conn str : String) (v : Int)
    (t : Nat) (h : cache.available = true) :
    get_available_seats_from_cache
      (set_available_seats_in_cache cache carr conn str v t) carr conn str =
        some v := by
  unfold get_available_seats_from_cache set_available_seats_in_cache
  simp [h]

lemma mem_entries_after_set (cache : Cache) (carr conn str : String) (v : Int)
    (t : Nat) (h : cache.available = true) :
    CacheEntry.mk (seatsKey carr conn str) v t ∈
      (set_available_seats_in_cache cache carr conn str v t).entries := by
  unfold set_available_seats_in_cache
  simp [h]

lemma cacheAfterLookup_available (db : DB) (cache : Cache) (req : BookRequest) :
    (cacheAfterLookup db cache req).available = cache.available := by
  unfold cacheAfterLookup
  split
  · rfl
  · exact set_cache_available ..

/-! ### Claim C1 — create booking: 404 / availability / 400 / no insert -/

/-- Claim C1: create booking 404s exactly when no schedule row with the
requested triple has a linked flight; given a bookable flight, it
determines availability as the cached count on a hit and as
`max 0 (max_seats − bookings)` on a miss (`determinedAvailability`), 400s
exactly when that count is ≤ 0, stores the recomputed count under the
derived key with time-to-live 3600 on a miss, and inserts nothing on
either failure. -/
theorem claim_C1 (db : DB) (cache : Cache) (req : BookRequest) (uid : Int) :
    ((create_booking db cache req uid).1 = .notFound ↔ ¬ hasBookableFlight db req) ∧
    (hasBookableFlight db req →
      ((create_booking db cache req uid).1 = .noSeats ↔
        determinedAvailability db cache req ≤ 0)) ∧
    (hasBookableFlight db req →
      get_available_seats_from_cache cache req.carrid req.connid
        req.fldate.strftimeYmdHms = none →
      determinedAvailability db cache req ≤ 0 →
      cache.available = true →
      CacheEntry.mk (seatsKey req.carrid req.connid req.fldate.strftimeYmdHms)
        (determinedAvailability db cache req) 3600 ∈
          (create_booking db cache req uid).2.2.entries) ∧
    (((create_booking db cache req uid).1 = .notFound ∨
      (create_booking db cache req uid).1 = .noSeats) →
      (create_booking db cache req uid).2.1 = db) := by
  by_cases h : hasBookableFlight db req
  · by_cases h2 : determinedAvailability db cache req ≤ 0
    · have hm : create_booking db cache req uid =
          (.noSeats, db, cacheAfterLookup db cache req) := by
        rw [create_booking_eq_model]
        unfold create_booking_model
        rw [if_pos h, if_pos h2]
      refine ⟨by rw [hm]; exact iff_of_false (by simp) (not_not_intro h),
        fun _ => by rw [hm]; exact iff_of_true rfl h2,
        fun _ hC _ hav => ?_, fun _ => by rw [hm]⟩
      rw [hm]
      show CacheEntry.mk _ _ 3600 ∈ (cacheAfterLookup db cache req).entries
      unfold cacheAfterLookup
      rw [hC]
      exact mem_entries_after_set cache _ _ _ _ _ hav
    · have hm : create_booking db cache req uid =
          (.created (newBookid db req),
           { db with sbooks := db.sbooks ++ [newBooking db req uid] },
           set_available_seats_in_cache (cacheAfterLookup db cache req)
             req.carrid req.connid req.fldate.strftimeYmdHms
             (determinedAvailability db cache req - 1) 3600) := by
        rw [create_booking_eq_model]
        unfold create_booking_model
        rw [if_pos h, if_neg h2]
      refine ⟨by rw [hm]; exact iff_of_false (by simp) (not_not_intro h),
        fun _ => by rw [hm]; exact iff_of_false (by simp) h2,
        fun _ _ hdet _ => absurd hdet h2, fun hor => ?_⟩
      rw [hm] at hor
      rcases hor with h3 | h3 <;> simp at h3
  · have hm : create_booking db cache req uid = (.notFound, db, cache) := by
      rw [create_booking_eq_model]
      unfold create_booking_model
      rw [if_neg h]
    exact ⟨by rw [hm]; exact iff_of_true rfl h, fun hc => absurd hc h,
      fun hc => absurd hc h, fun _ => by rw [hm]⟩

/-- A small bookable state: one schedule, one linked flight with three
seats, no bookings, reachable empty cache. -/
def dtW : DateTime := ⟨2025, 9, 10, 14, 0, 0⟩

def reqW : BookRequest := ⟨"BA", "0007", dtW⟩

def dbW : DB :=
  { DB.empty with
    scarrs := [⟨"100", "BA", "British Airways"⟩],
    sflights := [⟨"100", "BA", "0007", dtW, some "200.00", some "EUR", 3, 1002, 1003⟩],
    spflis := [⟨"100", "BA", "0007", dtW, "UK", "London", "LON", "RU", "Moscow", "MOS", 240⟩],
    scusts := [⟨"100", 7, "seven"⟩] }

/-- Witness for claim C1: an unknown flight 404s without touching the
store, and a sold-out flight (seen through an unreachable cache, so the
count is recomputed as 3 − 3 = 0) 400s without inserting. -/
theorem claim_C1_witness :
    (create_booking dbW ⟨true, []⟩ ⟨"XX", "9999", dtW⟩ 7).1 = .notFound ∧
    (create_booking dbW ⟨true, []⟩ ⟨"XX", "9999", dtW⟩ 7).2.1 = dbW ∧
    ((create_booking dbC9 ⟨false, []⟩ reqC9 7).1 = .noSeats ∧
      (create_booking dbC9 ⟨false, []⟩ reqC9 7).2.1 = dbC9) := by
  have h1 := claim_C1 dbW ⟨true, []⟩ ⟨"XX", "9999", dtW⟩ 7
  have h2 := claim_C1 dbC9 ⟨false, []⟩ reqC9 7
  have hnf : (create_booking dbW ⟨true, []⟩ ⟨"XX", "9999", dtW⟩ 7).1 = .notFound :=
    h1.1.mpr (by decide)
  have hns : (create_booking dbC9 ⟨false, []⟩ reqC9 7).1 = .noSeats :=
    (h2.2.1 (by decide)).mpr (by decide)
  exact ⟨hnf, h1.2.2.2 (Or.inl hnf), hns, h2.2.2.2 (Or.inr hns)⟩

/-! ### Claim C2 — create booking success path -/

/-- Claim C2: when create booking succeeds, the new booking number is one
more than the schedule's maximum existing booking number (1 when no
bookings exist), the inserted row carries client "100" and the caller's
user id, the cached count for the derived key becomes the pre-insert
availability minus one (when the cache backend is reachable; with it down
every cache write is a no-op), and the 201 response carries the new
number. -/
theorem claim_C2 (db : DB) (cache : Cache) (req : BookRequest) (uid : Int)
    (n : Int) (db2 : DB) (cache2 : Cache)
    (h : create_booking db cache req uid = (.created n, db2, cache2)) :
    hasBookableFlight db req ∧
    0 < determinedAvailability db cache req ∧
    (reqBookings db req = [] → n = 1) ∧
    (∀ b ∈ reqBookings db req, b.bookid < n) ∧
    (reqBookings db req ≠ [] → ∃ b ∈ reqBookings db req, n = b.bookid + 1) ∧
    db2.sbooks = db.sbooks ++
      [⟨"100", req.carrid, req.connid, req.fldate, n, "100", uid⟩] ∧
    (cache.available = true →
      get_available_seats_from_cache cache2 req.carrid req.connid
        req.fldate.strftimeYmdHms =
          some (determinedAvailability db cache req - 1)) := by
  rw [create_booking_eq_model] at h
  unfold create_booking_model at h
  by_cases hb : hasBookableFlight db req
  · rw [if_pos hb] at h
    by_cases hd : determinedAvailability db cache req ≤ 0
    · rw [if_pos hd] at h
      exact absurd (congrArg Prod.fst h) (by simp)
    · rw [if_neg hd] at h
      injection h with hfst hrest
      injection hrest with hdb hcache
      injection hfst with hn
      subst hdb hcache
      refine ⟨hb, not_le.mp hd, ?_, ?_, ?_, ?_, ?_⟩
      · intro hnil
        rw [← hn]
        simp [newBookid, hnil, pyMaxD]
      · intro b hbm
        rw [← hn]
        unfold newBookid
        exact Int.lt_add_one_iff.mpr
          (pyMaxD_le_mem 0 (List.mem_map_of_mem (fun x => x.bookid) hbm))
      · intro hne
        have hmapne : (reqBookings db req).map (fun x => x.bookid) ≠ [] := by
          simpa using hne
        have hm := pyMaxD_mem (l := (reqBookings db req).map (fun x => x.bookid)) 0 hmapne
        obtain ⟨b, hbm, hbe⟩ := List.mem_map.mp hm
        exact ⟨b, hbm, by rw [← hn]; unfold newBookid; rw [hbe]⟩
      · rw [← hn]
        rfl
      · intro hav
        have hcl : (cacheAfterLookup db cache req).available = true := by
          rw [cacheAfterLookup_available]; exact hav
        exact get_after_set _ _ _ _ _ _ hcl
  · rw [if_neg hb] at h
    exact absurd (congrArg Prod.fst h) (by simp)

/-- Witness for claim C2: booking the three-seat flight in `dbW` (empty
reachable cache, user 7) yields number 1, appends the row (client "100",
customer 7) and caches 3 − 1 = 2. -/
theorem claim_C2_witness :
    hasBookableFlight dbW reqW ∧
    determinedAvailability dbW ⟨true, []⟩ reqW = 3 ∧
    (create_booking dbW ⟨true, []⟩ reqW 7).2.1.sbooks =
      dbW.sbooks ++ [⟨"100", "BA", "0007", dtW, 1, "100", 7⟩] ∧
    get_available_seats_from_cache (create_booking dbW ⟨true, []⟩ reqW 7).2.2
      "BA" "0007" dtW.strftimeYmdHms =
        some (determinedAvailability dbW ⟨true, []⟩ reqW - 1) := by
  have h := claim_C2 dbW ⟨true, []⟩ reqW 7 1
    (create_booking dbW ⟨true, []⟩ reqW 7).2.1
    (create_booking dbW ⟨true, []⟩ reqW 7).2.2 (by rfl)
  refine ⟨h.1, by decide, ?_, h.2.2.2.2.2.2 rfl⟩
  have hb := h.2.2.2.2.2.1
  simpa using hb

/-! ### Claim C5 — flight search characterization -/

/-- Claim C5: for a parseable date, the search result contains exactly
the schedule rows whose city names contain the given substrings
case-insensitively, whose departure date component equals the requested
date, and whose linked flight has positive computed availability; every
returned item is the shaped row carrying that availability. -/
theorem claim_C5 (db : DB) (from_city to_city : String) (target : DateOnly)
    (item : FlightItem) :
    item ∈ search_flights db from_city to_city target ↔
      ∃ sp ∈ db.spflis,
        ilikeContains sp.cityfrom from_city = true ∧
        ilikeContains sp.cityto to_city = true ∧
        sp.fldate.dateOnly = target ∧
        ∃ f, sp.flightOf db = some f ∧
          0 < max 0 (f.seatsmax - ((sp.bookingsOf db).length : Int)) ∧
          item = mkSearchItem db sp f := by
  unfold search_flights
  simp only [List.mem_filterMap, List.mem_filter]
  constructor
  · rintro ⟨sp, ⟨hmem, hcity⟩, hfn⟩
    rw [Bool.and_eq_true] at hcity
    refine ⟨sp, hmem, hcity.1, hcity.2, ?_⟩
    split at hfn
    · cases hfn
    · rename_i hdd
      have hdate : sp.fldate.dateOnly = target := by simpa using hdd
      split at hfn
      · cases hfn
      · rename_i f hf
        split at hfn
        · cases hfn
        · rename_i ha
          exact ⟨hdate, f, hf, not_le.mp ha, (Option.some.inj hfn).symm⟩
  · rintro ⟨sp, hmem, hc1, hc2, hdate, f, hf, havail, rfl⟩
    refine ⟨sp, ⟨hmem, by rw [Bool.and_eq_true]; exact ⟨hc1, hc2⟩⟩, ?_⟩
    rw [if_neg (by simp [hdate])]
    rw [hf]
    exact if_neg (not_le.mpr havail)

/-- Witness for claim C5: searching `dbW` for `lon` → `mos` on
2025-09-10 finds the London–Moscow schedule with 3 available seats. -/
theorem claim_C5_witness :
    mkSearchItem dbW
        ⟨"100", "BA", "0007", dtW, "UK", "London", "LON", "RU", "Moscow", "MOS", 240⟩
        ⟨"100", "BA", "0007", dtW, some "200.00", some "EUR", 3, 1002, 1003⟩ ∈
      search_flights dbW "lon" "mos" ⟨2025, 9, 10⟩ := by
  refine (claim_C5 dbW "lon" "mos" ⟨2025, 9, 10⟩ _).mpr
    ⟨⟨"100", "BA", "0007", dtW, "UK", "London", "LON", "RU", "Moscow", "MOS", 240⟩,
      by decide, by decide, by decide, by decide,
      ⟨"100", "BA", "0007", dtW, some "200.00", some "EUR", 3, 1002, 1003⟩,
      by decide, by decide, rfl⟩

/-! ### Claim C6 — full listing: contents and ordering -/

lemma perm_insertByFldate (x : FlightItem) (l : List FlightItem) :
    List.Perm (insertByFldate x l) (x :: l) := by
  induction l with
  | nil => exact List.Perm.refl _
  | cons y ys ih =>
    unfold insertByFldate
    by_cases hc : y.fldate ≤ x.fldate
    · rw [if_pos hc]
      exact (ih.cons y).trans (List.Perm.swap x y ys)
    · rw [if_neg hc]

lemma perm_sortByFldate (l : List FlightItem) : List.Perm (sortByFldate l) l := by
  induction l with
  | nil => exact List.Perm.refl _
  | cons x xs ih =>
    show List.Perm (insertByFldate x (sortByFldate xs)) (x :: xs)
    exact (perm_insertByFldate x (sortByFldate xs)).trans (ih.cons x)

lemma pairwise_insertByFldate (x : FlightItem) (l : List FlightItem)
    (h : l.Pairwise fun a b => a.fldate ≤ b.fldate) :
    (insertByFldate x l).Pairwise fun a b => a.fldate ≤ b.fldate := by
  induction l with
  | nil => simp [insertByFldate]
  | cons y ys ih =>
    rcases List.pairwise_cons.mp h with ⟨hy, hys⟩
    unfold insertByFldate
    by_cases hc : y.fldate ≤ x.fldate
    · rw [if_pos hc]
      refine List.pairwise_cons.mpr ⟨fun z hz => ?_, ih hys⟩
      rcases List.mem_cons.mp ((perm_insertByFldate x ys).mem_iff.mp hz) with rfl | hzys
      · exact hc
      · exact hy z hzys
    · rw [if_neg hc]
      refine List.pairwise_cons.mpr ⟨fun z hz => ?_, h⟩
      have hxy : x.fldate ≤ y.fldate := le_of_not_le hc
      rcases List.mem_cons.mp hz with rfl | hzys
      · exact hxy
      · exact le_trans hxy (hy z hzys)

lemma pairwise_sortByFldate (l : List FlightItem) :
    (sortByFldate l).Pairwise fun a b => a.fldate ≤ b.fldate := by
  induction l with
  | nil => simp [sortByFldate]
  | cons x xs ih => exact pairwise_insertByFldate x (sortByFldate xs) ih

/-- Claim C6: the full listing contains exactly the schedule rows with a
linked flight (rows without one skipped), each shaped with computed
available seats and total seats, and the result is ordered by
non-decreasing departure-timestamp string. -/
theorem claim_C6 (db : DB) :
    (∀ item, item ∈ get_all_flights db ↔
      ∃ sp ∈ db.spflis, ∃ f, sp.flightOf db = some f ∧
        item = mkListingItem db sp f) ∧
    (get_all_flights db).Pairwise (fun a b => a.fldate ≤ b.fldate) := by
  constructor
  · intro item
    unfold get_all_flights
    rw [(perm_sortByFldate _).mem_iff]
    simp only [List.mem_filterMap]
    constructor
    · rintro ⟨sp, hmem, hfn⟩
      split at hfn
      · cases hfn
      · rename_i f hf
        exact ⟨sp, hmem, f, hf, (Option.some.inj hfn).symm⟩
    · rintro ⟨sp, hmem, f, hf, rfl⟩
      refine ⟨sp, hmem, ?_⟩
      rw [hf]
  · exact pairwise_sortByFldate _

/-- Witness for claim C6: the listing of `dbW` contains the shaped
London–Moscow row (3 of 3 seats). -/
theorem claim_C6_witness :
    mkListingItem dbW
        ⟨"100", "BA", "0007", dtW, "UK", "London", "LON", "RU", "Moscow", "MOS", 240⟩
        ⟨"100", "BA", "0007", dtW, some "200.00", some "EUR", 3, 1002, 1003⟩ ∈
      get_all_flights dbW ∧
    (get_all_flights dbW).Pairwise (fun a b => a.fldate ≤ b.fldate) := by
  refine ⟨(claim_C6 dbW).1 _ |>.mpr
    ⟨⟨"100", "BA", "0007", dtW, "UK", "London", "LON", "RU", "Moscow", "MOS", 240⟩,
      by decide,
      ⟨"100", "BA", "0007", dtW, some "200.00", some "EUR", 3, 1002, 1003⟩,
      by decide, rfl⟩, (claim_C6 dbW).2⟩

/-! ### Claim C3 — what the seeding utility retains when the user phase
raises (corrected) -/

/-- Componentwise membership preservation for the four tables the
seeding claim is about. -/
structure DB.MemSub (a b : DB) : Prop where
  scarrs : ∀ x ∈ a.scarrs, x ∈ b.scarrs
  sairports : ∀ x ∈ a.sairports, x ∈ b.sairports
  sflights : ∀ x ∈ a.sflights, x ∈ b.sflights
  spflis : ∀ x ∈ a.spflis, x ∈ b.spflis

lemma DB.MemSub.rfl (a : DB) : DB.MemSub a a :=
  ⟨fun _ h => h, fun _ h => h, fun _ h => h, fun _ h => h⟩

lemma DB.MemSub.comp {a b c : DB} (h1 : DB.MemSub a b) (h2 : DB.MemSub b c) :
    DB.MemSub a c :=
  ⟨fun x h => h2.scarrs x (h1.scarrs x h),
   fun x h => h2.sairports x (h1.sairports x h),
   fun x h => h2.sflights x (h1.sflights x h),
   fun x h => h2.spflis x (h1.spflis x h)⟩

lemma DB.append_memSub_left (a b : DB) : DB.MemSub a (a.append b) :=
  ⟨fun _ h => List.mem_append_left _ h, fun _ h => List.mem_append_left _ h,
   fun _ h => List.mem_append_left _ h, fun _ h => List.mem_append_left _ h⟩

lemma carrStep_view_mono {s : Session} {x : SCarr} (p : String × String)
    (h : x ∈ s.view.scarrs) : x ∈ (carrStep s p).view.scarrs := by
  unfold carrStep
  split
  · exact h
  · show x ∈ s.committed.scarrs ++ (s.pending.scarrs ++ [⟨"100", p.1, p.2⟩])
    have h2 : x ∈ s.committed.scarrs ++ s.pending.scarrs := h
    rcases List.mem_append.mp h2 with h3 | h3
    · exact List.mem_append_left _ h3
    · exact List.mem_append_right _ (List.mem_append_left _ h3)

lemma foldl_carrStep_view_mono (l : List (String × String)) {s : Session}
    {x : SCarr} (h : x ∈ s.view.scarrs) : x ∈ (l.foldl carrStep s).view.scarrs := by
  induction l generalizing s with
  | nil => exact h
  | cons p ps ih => exact ih (carrStep_view_mono p h)

lemma carrStep_covers (s : Session) (p : String × String) :
    ∃ c ∈ (carrStep s p).view.scarrs, c.carrid = p.1 := by
  unfold carrStep
  split
  · rename_i hex
    obtain ⟨c, hc⟩ := Option.isSome_iff_exists.mp hex
    have hpred := List.find?_some hc
    exact ⟨c, List.mem_of_find?_eq_some hc, by simpa using hpred⟩
  · refine ⟨⟨"100", p.1, p.2⟩, ?_, rfl⟩
    show _ ∈ s.committed.scarrs ++ (s.pending.scarrs ++ [⟨"100", p.1, p.2⟩])
    exact List.mem_append_right _ (List.mem_append_right _ (List.mem_singleton_self _))

lemma foldl_carrStep_covers (l : List (String × String)) (s : Session) :
    ∀ p ∈ l, ∃ c ∈ (l.foldl carrStep s).view.scarrs, c.carrid = p.1 := by
  induction l generalizing s with
  | nil => intro p hp; cases hp
  | cons q qs ih =>
    intro p hp
    rcases List.mem_cons.mp hp with rfl | hp2
    · obtain ⟨c, hc, he⟩ := carrStep_covers s p
      exact ⟨c, foldl_carrStep_view_mono qs hc, he⟩
    · exact ih (carrStep s q) p hp2

lemma airpStep_view_mono {s : Session} {x : SAirport} (p : Int × String)
    (h : x ∈ s.view.sairports) : x ∈ (airpStep s p).view.sairports := by
  unfold airpStep
  split
  · exact h
  · show x ∈ s.committed.sairports ++ (s.pending.sairports ++ [⟨"100", p.1, p.2⟩])
    have h2 : x ∈ s.committed.sairports ++ s.pending.sairports := h
    rcases List.mem_append.mp h2 with h3 | h3
    · exact List.mem_append_left _ h3
    · exact List.mem_append_right _ (List.mem_append_left _ h3)

lemma foldl_airpStep_view_mono (l : List (Int × String)) {s : Session}
    {x : SAirport} (h : x ∈ s.view.sairports) :
    x ∈ (l.foldl airpStep s).view.sairports := by
  induction l generalizing s with
  | nil => exact h
  | cons p ps ih => exact ih (airpStep_view_mono p h)

lemma airpStep_covers (s : Session) (p : Int × String) :
    ∃ a ∈ (airpStep s p).view.sairports, a.id = p.1 := by
  unfold airpStep
  split
  · rename_i hex
    obtain ⟨a, ha⟩ := Option.isSome_iff_exists.mp hex
    have hpred := List.find?_some ha
    exact ⟨a, List.mem_of_find?_eq_some ha, by simpa using hpred⟩
  · refine ⟨⟨"100", p.1, p.2⟩, ?_, rfl⟩
    show _ ∈ s.committed.sairports ++ (s.pending.sairports ++ [⟨"100", p.1, p.2⟩])
    exact List.mem_append_right _ (List.mem_append_right _ (List.mem_singleton_self _))

lemma foldl_airpStep_covers (l : List (Int × String)) (s : Session) :
    ∀ p ∈ l, ∃ a ∈ (l.foldl airpStep s).view.sairports, a.id = p.1 := by
  induction l generalizing s with
  | nil => intro p hp; cases hp
  | cons q qs ih =>
    intro p hp
    rcases List.mem_cons.mp hp with rfl | hp2
    · obtain ⟨a, ha, he⟩ := airpStep_covers s p
      exact ⟨a, foldl_airpStep_view_mono qs ha, he⟩
    · exact ih (airpStep s q) p hp2

lemma airpStep_view_scarrs (s : Session) (p : Int × String) :
    (airpStep s p).view.scarrs = s.view.scarrs := by
  unfold airpStep
  split <;> rfl

lemma foldl_airpStep_view_scarrs (l : List (Int × String)) (s : Session) :
    (l.foldl airpStep s).view.scarrs = s.view.scarrs := by
  induction l generalizing s with
  | nil => rfl
  | cons p ps ih => rw [List.foldl_cons, ih, airpStep_view_scarrs]

lemma flightStep_committed_sub (s : Session) (g : GenFlight) :
    DB.MemSub s.committed (flightStep s g).committed :=
  DB.append_memSub_left s.committed _

lemma seedFlights_cons (s : Session) (g : GenFlight) (gs : List GenFlight) :
    seedFlights s (g :: gs) = seedFlights (flightStep s g) gs := rfl

lemma seedFlights_committed_sub (gens : List GenFlight) (s : Session) :
    DB.MemSub s.committed (seedFlights s gens).committed := by
  induction gens generalizing s with
  | nil => exact DB.MemSub.rfl _
  | cons g gs ih =>
    rw [seedFlights_cons]
    exact (flightStep_committed_sub s g).comp (ih (flightStep s g))

lemma flightRow_mem_flightStep (s : Session) (g : GenFlight) :
    g.flightRow ∈ (flightStep s g).committed.sflights := by
  show g.flightRow ∈ s.committed.sflights ++ (s.pending.sflights ++ [g.flightRow])
  exact List.mem_append_right _ (List.mem_append_right _ (List.mem_singleton_self _))

lemma seedFlights_flight_mem (gens : List GenFlight) :
    ∀ s : Session, ∀ g ∈ gens, g.flightRow ∈ (seedFlights s gens).committed.sflights := by
  induction gens with
  | nil => intro s g hg; cases hg
  | cons g1 gs ih =>
    intro s g hg
    rw [seedFlights_cons]
    rcases List.mem_cons.mp hg with rfl | hg2
    · exact (seedFlights_committed_sub gs (flightStep s g)).sflights _
        (flightRow_mem_flightStep s g)
    · exact ih (flightStep s g1) g hg2

lemma pending_spflis_mem_flightStep (s : Session) (g : GenFlight) :
    ∀ x ∈ s.pending.spflis, x ∈ (flightStep s g).committed.spflis := by
  intro x h
  show x ∈ s.committed.spflis ++ s.pending.spflis
  exact List.mem_append_right _ h

lemma seedFlights_pending_spflis (gens : List GenFlight) (hne : gens ≠ []) :
    ∀ s : Session, ∀ x ∈ s.pending.spflis,
      x ∈ (seedFlights s gens).committed.spflis := by
  cases gens with
  | nil => exact absurd rfl hne
  | cons g gs =>
    intro s x hx
    rw [seedFlights_cons]
    exact (seedFlights_committed_sub gs (flightStep s g)).spflis x
      (pending_spflis_mem_flightStep s g x hx)

lemma flightStep_pending_spflis (s : Session) (g : GenFlight) :
    (flightStep s g).pending.spflis = [g.spfliRow] := rfl

lemma seedFlights_spfli_mem (gens : List GenFlight) :
    ∀ (s : Session) (i : Nat) (hlt : i + 1 < gens.length) (hi : i < gens.length),
      (gens.get ⟨i, hi⟩).spfliRow ∈ (seedFlights s gens).committed.spflis := by
  induction gens with
  | nil => intro s i _ hi; cases hi
  | cons g gs ih =>
    intro s i hlt hi
    cases i with
    | zero =>
      have hne : gs ≠ [] := by
        intro he
        rw [he] at hlt
        simp at hlt
      rw [seedFlights_cons]
      apply seedFlights_pending_spflis gs hne (flightStep s g)
      rw [flightStep_pending_spflis]
      exact List.mem_singleton_self _
    | succ j =>
      rw [seedFlights_cons]
      exact ih (flightStep s g) j (Nat.succ_lt_succ_iff.mp hlt)
        (Nat.succ_lt_succ_iff.mp hi)

lemma seedUsersGo_committed_sub (hash : String → String) (specs : List UserSpec) :
    ∀ (s : Session) (idx : Nat) (failAt : Option Nat) (nid : Int),
      DB.MemSub s.committed (seedUsersGo hash s specs idx failAt nid).2.committed := by
  induction specs with
  | nil =>
    intro s idx failAt nid
    unfold seedUsersGo
    split
    · exact DB.MemSub.rfl _
    · exact DB.append_memSub_left _ _
  | cons u rest ih =>
    intro s idx failAt nid
    unfold seedUsersGo
    split
    · exact DB.MemSub.rfl _
    · split
      · exact ih s (idx + 1) failAt nid
      · refine DB.MemSub.comp (DB.append_memSub_left s.committed
          { s.pending with users := s.pending.users ++
            [⟨nid, u.username, u.email, hash u.password, false⟩] }) ?_
        exact ih ⟨s.committed.append
            { s.pending with users := s.pending.users ++
              [⟨nid, u.username, u.email, hash u.password, false⟩] },
            { DB.empty with scusts := [⟨"100", nid, u.username⟩] }⟩
          (idx + 1) failAt (nid + 1)

/-- Claim C3 (amended): whenever the user-seeding phase raises, the
partial transaction is rolled back and the error re-raised (the `raised`
outcome), and the after-rollback store still holds every fixed carrier
and airport, every generated flight row, and every generated schedule row
*except possibly the last one* — the final schedule row is still pending
when the user phase starts and is made durable only by a user-phase
commit, so it can be lost to the rollback (see the counterexample). -/
theorem claim_C3 (hash : String → String) (gens : List GenFlight)
    (specs : List UserSpec) (failAt : Option Nat) (nextId : Int) (init : DB)
    (db : DB)
    (h : fill_data_main hash gens specs failAt nextId init = .raised db) :
    (∀ p ∈ seedCarrierList, ∃ c ∈ db.scarrs, c.carrid = p.1) ∧
    (∀ p ∈ seedAirportList, ∃ a ∈ db.sairports, a.id = p.1) ∧
    (∀ g ∈ gens, g.flightRow ∈ db.sflights) ∧
    (∀ (i : Nat) (hlt : i + 1 < gens.length) (hi : i < gens.length),
      (gens.get ⟨i, hi⟩).spfliRow ∈ db.spflis) := by
  unfold fill_data_main at h
  cases husers : seedUsersGo hash
      (seedFlights ((seedAirports (seedCarriers ⟨init, DB.empty⟩)).commit) gens)
      specs 0 failAt nextId with
  | mk raised s3 =>
    rw [husers] at h
    cases raised with
    | false => simp at h
    | true =>
      have hdb : db = s3.committed := by
        simp only [Session.rollback] at h
        injection h with h2
        exact h2.symm
      subst hdb
      have hsub3 : DB.MemSub
          (seedFlights ((seedAirports (seedCarriers ⟨init, DB.empty⟩)).commit) gens).committed
          s3.committed := by
        have hs := seedUsersGo_committed_sub hash specs
          (seedFlights ((seedAirports (seedCarriers ⟨init, DB.empty⟩)).commit) gens)
          0 failAt nextId
        rw [husers] at hs
        exact hs
      have hsubF : DB.MemSub
          ((seedAirports (seedCarriers ⟨init, DB.empty⟩)).commit).committed
          s3.committed :=
        (seedFlights_committed_sub gens _).comp hsub3
      refine ⟨?_, ?_, ?_, ?_⟩
      · intro p hp
        have hcov : ∃ c ∈ (seedCarriers ⟨init, DB.empty⟩).view.scarrs, c.carrid = p.1 :=
          foldl_carrStep_covers seedCarrierList ⟨init, DB.empty⟩ p hp
        obtain ⟨c, hc, he⟩ := hcov
        have hc2 : c ∈ ((seedAirports (seedCarriers ⟨init, DB.empty⟩)).commit).committed.scarrs := by
          show c ∈ (seedAirportList.foldl airpStep (seedCarriers ⟨init, DB.empty⟩)).view.scarrs
          rw [foldl_airpStep_view_scarrs]
          exact hc
        exact ⟨c, hsubF.scarrs c hc2, he⟩
      · intro p hp
        have hcov : ∃ a ∈ (seedAirports (seedCarriers ⟨init, DB.empty⟩)).view.sairports,
            a.id = p.1 :=
          foldl_airpStep_covers seedAirportList (seedCarriers ⟨init, DB.empty⟩) p hp
        obtain ⟨a, ha, he⟩ := hcov
        exact ⟨a, hsubF.sairports a ha, he⟩
      · intro g hg
        exact hsub3.sflights _ (seedFlights_flight_mem gens _ g hg)
      · intro i hlt hi
        exact hsub3.spflis _ (seedFlights_spfli_mem gens _ i hlt hi)

def dtC3 : DateTime := ⟨2025, 10, 1, 12, 0, 0⟩

def genC3 : GenFlight :=
  ⟨"SU", "0001", dtC3, some "100.00", 60, 1001, 1002, "Moscow", "London", 120⟩

def userC3 : UserSpec := ⟨"admin", "admin@example.com", "123"⟩

/-- The seeding run in which the user phase raises before its first
commit (for example, the very first user-existence query fails). -/
def runC3 : SeedOutcome :=
  fill_data_main (fun s => s) [genC3] [userC3] (some 0) 1 DB.empty

/-- Counterexample to claim C3 as stated: in `runC3` the user phase
raises before any user-phase commit; the generated flight row survives
the rollback but its schedule row — still pending from the flight loop —
does not, so not "every ... schedule row seeded earlier in the same run
remains committed and retained". -/
theorem claim_C3_counterexample :
    runC3.isRaised = true ∧
    genC3.flightRow ∈ runC3.db.sflights ∧
    genC3.spfliRow ∉ runC3.db.spflis := by
  refine ⟨rfl, by decide, by decide⟩

/-- Witness for claim C3 (amended): applying it to `runC3` shows the
carrier `SU` and the generated flight row survive that failing run. -/
theorem claim_C3_witness :
    (∃ c ∈ runC3.db.scarrs, c.carrid = "SU") ∧
    genC3.flightRow ∈ runC3.db.sflights := by
  have h := claim_C3 (fun s => s) [genC3] [userC3] (some 0) 1 DB.empty
    runC3.db (by rfl)
  exact ⟨h.1 ("SU", "Aeroflot") (by decide), h.2.2.1 genC3 (by decide)⟩

end Task9
